import Mathlib

/-
  Verification of the coffee-ai-fastapi question service.

  Shallow embedding of `main.py`: the data model (request body, chat
  messages, provider outcomes, answer envelope), the two HTTP handlers
  (`root`, `ask_coffee_endpoint`) and the core function
  `ask_coffee_question`, with the provider call abstracted as a function
  from the outbound chat request to a provider outcome.  A handler is
  embedded as a pure function returning its result together with the
  list of completion requests it issued.
-/

namespace CoffeeAI

/-- Request model `CoffeeQuestion` (main.py lines 30-38): the body of
POST /ask-coffee, with an optional `question` field. -/
structure CoffeeQuestion where
  question : Option String
deriving DecidableEq

/-- One message of the chat payload: a role and a content string
(main.py lines 113-116). -/
structure ChatMessage where
  role : String
  content : String
deriving DecidableEq

/-- The outbound completion request, carrying exactly the arguments the
code passes to `openai_client.chat.completions.create` (main.py lines
111-119).  The sampling temperature is embedded as a rational number. -/
structure ChatRequest where
  model : String
  messages : List ChatMessage
  max_tokens : Nat
  temperature : ℚ
deriving DecidableEq

/-- The message inside one choice of a provider completion; its content
is optional, as in the provider SDK. -/
structure ChoiceMessage where
  content : Option String
deriving DecidableEq

/-- One choice of a provider completion. -/
structure Choice where
  message : ChoiceMessage
deriving DecidableEq

/-- A provider completion response: a list of choices.  The code reads
`response.choices[0].message.content` (main.py line 122). -/
structure ChatCompletion where
  choices : List Choice
deriving DecidableEq

/-- Outcome of the provider call, covering the exception classes the
code catches (main.py lines 134-157): a completion, an authentication
error, a rate-limit error, any other API-level error carrying a
message, or any other unexpected exception carrying a message. -/
inductive ProviderOutcome where
  | completion (response : ChatCompletion)
  | authenticationError
  | rateLimitError
  | apiError (msg : String)
  | otherException (msg : String)
deriving DecidableEq

/-- The success envelope built at main.py lines 126-132. -/
structure AnswerEnvelope where
  status : String
  question : String
  ai_response : Option String
  model_used : String
  coffee_expert : String
deriving DecidableEq

/-- Result of the question service: a 200 envelope, or an
`HTTPException` with a status code and a detail string. -/
inductive HandlerResult where
  | ok (body : AnswerEnvelope)
  | httpError (status_code : Nat) (detail : String)
deriving DecidableEq

/-- The default question substituted at main.py line 98. -/
def default_question : String :=
  "What are the top 5 coffee brewing methods and their characteristics?"

/-- The system instruction of main.py line 114. -/
def system_instruction : String :=
  "You are a knowledgeable coffee expert and barista."

/-- The f-string template of main.py lines 103-108, with the question
substituted; whitespace reproduced byte for byte. -/
def coffee_prompt (question : String) : String :=
  "You are a coffee expert and barista with deep knowledge about coffee beans, brewing methods, equipment, and coffee culture. \n        Please answer the following coffee question in a helpful, informative, and engaging way:\n        \n        Question: " ++ question ++ "\n        \n        Please provide a detailed answer that would be helpful to someone interested in coffee."

/-- The completion request issued at main.py lines 111-119 for a given
effective question: fixed model, two messages (system instruction and
the coffee prompt), max_tokens 500, temperature 0.7. -/
def build_chat_request (question : String) : ChatRequest :=
  { model := "gpt-3.5-turbo"
  , messages :=
      [ { role := "system", content := system_instruction }
      , { role := "user", content := coffee_prompt question } ]
  , max_tokens := 500
  , temperature := (7 : ℚ) / 10 }

/-- Substitution of the default question (main.py lines 97-98): the
Python truthiness test `if not question` fires exactly for an absent
question or the empty string. -/
def effective_question (question : Option String) : String :=
  match question with
  | none => default_question
  | some q => if q = "" then default_question else q

/-- Detail string of the 401 authentication error (main.py line 138). -/
def auth_error_detail : String :=
  "OpenAI API key not configured or invalid. Please set OPENAI_API_KEY environment variable."

/-- Detail string of the 429 rate-limit error (main.py line 144). -/
def rate_limit_detail : String :=
  "OpenAI API rate limit exceeded. Please try again later."

/-- Message of the CPython `IndexError` raised by `response.choices[0]`
on an empty choices list (main.py line 122); it is caught by the
generic `except Exception` handler at main.py lines 152-157. -/
def index_error_message : String := "list index out of range"

/-- The try/except dispatch of main.py lines 95-157 applied to the
outcome of the provider call: a completion with a first choice yields
the success envelope; a completion with an empty choices list raises an
`IndexError` during extraction, caught by the generic handler as a 500;
the four exception classes map to 401 / 429 / 500 / 500. -/
def handle_outcome (question : String) (outcome : ProviderOutcome) : HandlerResult :=
  match outcome with
  | .completion response =>
      match response.choices with
      | [] => .httpError 500 ("Failed to get coffee advice: " ++ index_error_message)
      | choice :: _ =>
          .ok { status := "success"
              , question := question
              , ai_response := choice.message.content
              , model_used := "gpt-3.5-turbo"
              , coffee_expert := "☕ AI Barista" }
  | .authenticationError => .httpError 401 auth_error_detail
  | .rateLimitError => .httpError 429 rate_limit_detail
  | .apiError msg => .httpError 500 ("OpenAI API error: " ++ msg)
  | .otherException msg => .httpError 500 ("Failed to get coffee advice: " ++ msg)

/-- The core function `ask_coffee_question` (main.py lines 69-157),
with the provider abstracted as a function from the outbound request to
an outcome.  Returns the handler result together with the list of
completion requests issued: the code issues exactly one. -/
def ask_coffee_question (provider : ChatRequest → ProviderOutcome)
    (question : Option String) : HandlerResult × List ChatRequest :=
  let q := effective_question question
  let req := build_chat_request q
  (handle_outcome q (provider req), [req])

/-- Normalisation at main.py line 203: the Python conditional
expression `coffee_question.question if coffee_question.question else
None` maps an absent or empty question to `None`. -/
def normalize_question (question : Option String) : Option String :=
  match question with
  | none => none
  | some q => if q = "" then none else some q

/-- The POST /ask-coffee handler `ask_coffee_endpoint` (main.py lines
159-207): normalises the body's question and delegates to
`ask_coffee_question`. -/
def ask_coffee_endpoint (provider : ChatRequest → ProviderOutcome)
    (coffee_question : CoffeeQuestion) : HandlerResult × List ChatRequest :=
  ask_coffee_question provider (normalize_question coffee_question.question)

/-- The static JSON body returned by GET / (main.py lines 63-67), as an
ordered list of key/value pairs. -/
def root_body : List (String × String) :=
  [ ("message", "Welcome to Coffee AI Assistant!")
  , ("description", "Use POST /ask-coffee to ask questions about coffee")
  , ("example", "POST /ask-coffee with body: \x7b\x27question\x27: \x27What is the best brewing method for coffee?\x27\x7d") ]

/-- The GET / handler `root` (main.py lines 52-67): a plain return of
the static body, which FastAPI serves with status 200; the handler
references no provider client, so the list of issued completion
requests is empty. -/
def root : (Nat × List (String × String)) × List ChatRequest :=
  ((200, root_body), [])

/-!  Theorems settling the claims. -/

/-- C1: for every request to POST /ask-coffee in which the provider
call fails, the error is classified and mapped exactly: authentication
failure → 401, rate-limit failure → 429, any other API-level provider
error → 500 with the provider's message embedded in the detail, any
other unexpected exception → 500 with the exception's message embedded
in the detail; no failing request produces a status code other than
401, 429 or 500. -/
theorem askCoffee_error_mapping (provider : ChatRequest → ProviderOutcome)
    (question : Option String) (s : Nat) (d : String)
    (h : (ask_coffee_question provider question).1 = HandlerResult.httpError s d) :
    (s = 401 ∨ s = 429 ∨ s = 500) ∧
    (provider (build_chat_request (effective_question question)) =
        ProviderOutcome.authenticationError → s = 401) ∧
    (provider (build_chat_request (effective_question question)) =
        ProviderOutcome.rateLimitError → s = 429) ∧
    (∀ m, provider (build_chat_request (effective_question question)) =
        ProviderOutcome.apiError m → s = 500 ∧ d = "OpenAI API error: " ++ m) ∧
    (∀ m, provider (build_chat_request (effective_question question)) =
        ProviderOutcome.otherException m →
          s = 500 ∧ d = "Failed to get coffee advice: " ++ m) := by
  simp only [ask_coffee_question] at h
  cases hp : provider (build_chat_request (effective_question question)) with
  | completion response =>
      rw [hp] at h
      cases hc : response.choices with
      | nil =>
          rw [handle_outcome, hc] at h
          simp only [HandlerResult.httpError.injEq] at h
          refine ⟨Or.inr (Or.inr h.1.symm), ?_, ?_, ?_, ?_⟩ <;>
            intros <;> simp_all
      | cons choice rest =>
          rw [handle_outcome, hc] at h
          exact absurd h (by simp)
  | authenticationError =>
      rw [hp, handle_outcome] at h
      simp only [HandlerResult.httpError.injEq] at h
      refine ⟨Or.inl h.1.symm, ?_, ?_, ?_, ?_⟩ <;> intros <;> simp_all
  | rateLimitError =>
      rw [hp, handle_outcome] at h
      simp only [HandlerResult.httpError.injEq] at h
      refine ⟨Or.inr (Or.inl h.1.symm), ?_, ?_, ?_, ?_⟩ <;> intros <;> simp_all
  | apiError msg =>
      rw [hp, handle_outcome] at h
      simp only [HandlerResult.httpError.injEq] at h
      refine ⟨Or.inr (Or.inr h.1.symm), ?_, ?_, ?_, ?_⟩ <;>
        intros <;> simp_all
  | otherException msg =>
      rw [hp, handle_outcome] at h
      simp only [HandlerResult.httpError.injEq] at h
      refine ⟨Or.inr (Or.inr h.1.symm), ?_, ?_, ?_, ?_⟩ <;>
        intros <;> simp_all

/-- Witness for C1 at a concrete input: a provider that always fails
authentication yields status 401 on question `none`. -/
theorem askCoffee_error_mapping_witness :
    401 = 401 ∨ 401 = 429 ∨ 401 = 500 :=
  (askCoffee_error_mapping (fun _ => ProviderOutcome.authenticationError) none
    401 auth_error_detail rfl).1

/-- Helper: whenever the try/except dispatch produces a success
envelope, that envelope carries the effective question and the three
constant fields of main.py lines 126-132. -/
theorem handle_outcome_ok (q : String) (o : ProviderOutcome) (env : AnswerEnvelope)
    (h : handle_outcome q o = HandlerResult.ok env) :
    env.question = q ∧ env.status = "success" ∧
    env.model_used = "gpt-3.5-turbo" ∧ env.coffee_expert = "☕ AI Barista" := by
  cases o with
  | completion response =>
      cases hc : response.choices with
      | nil => rw [handle_outcome, hc] at h; exact absurd h (by simp)
      | cons choice rest =>
          rw [handle_outcome, hc] at h
          simp only [HandlerResult.ok.injEq] at h
          subst h
          exact ⟨rfl, rfl, rfl, rfl⟩
  | authenticationError => rw [handle_outcome] at h; exact absurd h (by simp)
  | rateLimitError => rw [handle_outcome] at h; exact absurd h (by simp)
  | apiError msg => rw [handle_outcome] at h; exact absurd h (by simp)
  | otherException msg => rw [handle_outcome] at h; exact absurd h (by simp)

/-- A provider used only to instantiate theorems at concrete inputs:
it always returns a completion whose single choice carries the text
"demo answer". -/
def demo_provider : ChatRequest → ProviderOutcome :=
  fun _ =>
    ProviderOutcome.completion
      { choices := [{ message := { content := some "demo answer" } }] }

/-- C2: for every request whose `question` field is absent or the empty
string, the effective question used to build the prompt and returned in
the success envelope equals the fixed default string. -/
theorem askCoffee_default_question (provider : ChatRequest → ProviderOutcome)
    (q : Option String) (h : q = none ∨ q = some "") :
    (ask_coffee_endpoint provider ⟨q⟩).2 = [build_chat_request default_question] ∧
    ∀ env, (ask_coffee_endpoint provider ⟨q⟩).1 = HandlerResult.ok env →
      env.question = default_question := by
  have hq : normalize_question q = none := by
    rcases h with h | h <;> subst h <;> simp [normalize_question]
  constructor
  · simp [ask_coffee_endpoint, hq, ask_coffee_question, effective_question]
  · intro env henv
    simp only [ask_coffee_endpoint, hq, ask_coffee_question] at henv
    have hfields := handle_outcome_ok _ _ _ henv
    rw [hfields.1]
    rfl

/-- Witness for C2 at a concrete input: question `none` issues exactly
the request built from the default question. -/
theorem askCoffee_default_question_witness :
    (ask_coffee_endpoint demo_provider ⟨none⟩).2 =
      [build_chat_request default_question] :=
  (askCoffee_default_question demo_provider none (Or.inl rfl)).1

/-- C3: for every request whose `question` field is a non-empty string
q, the `question` field of the success envelope equals q exactly. -/
theorem askCoffee_verbatim_question (provider : ChatRequest → ProviderOutcome)
    (q : String) (h : q ≠ "") (env : AnswerEnvelope)
    (henv : (ask_coffee_endpoint provider ⟨some q⟩).1 = HandlerResult.ok env) :
    env.question = q := by
  have hq : normalize_question (some q) = some q := by simp [normalize_question, h]
  simp only [ask_coffee_endpoint, hq, ask_coffee_question] at henv
  have hfields := handle_outcome_ok _ _ _ henv
  rw [hfields.1]
  simp [effective_question, h]

/-- Witness for C3 at a concrete input: question "What makes perfect
espresso?" comes back verbatim in the envelope. -/
theorem askCoffee_verbatim_question_witness :
    ({ status := "success", question := "What makes perfect espresso?"
     , ai_response := some "demo answer", model_used := "gpt-3.5-turbo"
     , coffee_expert := "☕ AI Barista" } : AnswerEnvelope).question =
      "What makes perfect espresso?" :=
  askCoffee_verbatim_question demo_provider "What makes perfect espresso?"
    (by decide) _ rfl

/-- C4: for every request in which the provider call succeeds with
generated text T, the returned envelope is exactly the five-field
record with status "success", the effective question, T unchanged, the
model identifier, and the persona label. -/
theorem askCoffee_success_envelope (provider : ChatRequest → ProviderOutcome)
    (question : Option String) (T : String) (rest : List Choice)
    (h : provider (build_chat_request (effective_question question)) =
      ProviderOutcome.completion
        { choices := { message := { content := some T } } :: rest }) :
    (ask_coffee_question provider question).1 =
      HandlerResult.ok
        { status := "success", question := effective_question question
        , ai_response := some T, model_used := "gpt-3.5-turbo"
        , coffee_expert := "☕ AI Barista" } := by
  simp [ask_coffee_question, h, handle_outcome]

/-- Witness for C4 at a concrete input: a provider answering "demo
answer" yields exactly that envelope. -/
theorem askCoffee_success_envelope_witness :
    (ask_coffee_question demo_provider none).1 =
      HandlerResult.ok
        { status := "success", question := effective_question none
        , ai_response := some "demo answer", model_used := "gpt-3.5-turbo"
        , coffee_expert := "☕ AI Barista" } :=
  askCoffee_success_envelope demo_provider none "demo answer" [] rfl

/-- C5: GET / returns HTTP 200 with the fixed JSON object containing
exactly the keys message, description and example with their constant
values, and performs no call to the completion provider. -/
theorem root_static_info :
    root.1.1 = 200 ∧
    root.1.2.map Prod.fst = ["message", "description", "example"] ∧
    root.1.2 =
      [ ("message", "Welcome to Coffee AI Assistant!")
      , ("description", "Use POST /ask-coffee to ask questions about coffee")
      , ("example", "POST /ask-coffee with body: \x7b\x27question\x27: \x27What is the best brewing method for coffee?\x27\x7d") ] ∧
    root.2 = [] :=
  ⟨rfl, rfl, rfl, rfl⟩

/-- C6: for every request the service issues exactly one completion
request, and that request carries the system instruction, the model
identifier "gpt-3.5-turbo", max_tokens 500 and temperature 0.7. -/
theorem askCoffee_single_fixed_request (provider : ChatRequest → ProviderOutcome)
    (question : Option String) :
    (ask_coffee_question provider question).2 =
      [build_chat_request (effective_question question)] ∧
    (build_chat_request (effective_question question)).model = "gpt-3.5-turbo" ∧
    (build_chat_request (effective_question question)).messages =
      [ { role := "system", content := "You are a knowledgeable coffee expert and barista." }
      , { role := "user", content := coffee_prompt (effective_question question) } ] ∧
    (build_chat_request (effective_question question)).max_tokens = 500 ∧
    (build_chat_request (effective_question question)).temperature = (7 : ℚ) / 10 :=
  ⟨rfl, rfl, rfl, rfl, rfl⟩

/-- C7: the prompt and the full outbound payload are a deterministic
pure function of the effective question: two requests with equal
effective questions issue identical request lists, whatever the
provider state. -/
theorem askCoffee_prompt_deterministic (p1 p2 : ChatRequest → ProviderOutcome)
    (q1 q2 : Option String)
    (h : effective_question q1 = effective_question q2) :
    coffee_prompt (effective_question q1) = coffee_prompt (effective_question q2) ∧
    (ask_coffee_question p1 q1).2 = (ask_coffee_question p2 q2).2 := by
  constructor <;> simp [ask_coffee_question, h]

/-- Witness for C7 at concrete inputs: an absent question and the
default question spelled out produce the same prompt. -/
theorem askCoffee_prompt_deterministic_witness :
    coffee_prompt (effective_question none) =
      coffee_prompt (effective_question (some default_question)) :=
  (askCoffee_prompt_deterministic demo_provider demo_provider none
    (some default_question) rfl).1

/-- C8: a provider completion whose choices list is empty makes the
extraction of the generated text fail; the generic handler converts
this into the HTTP 500 error whose detail begins with "Failed to get
coffee advice:", so no unhandled exception propagates. -/
theorem askCoffee_malformed_completion (provider : ChatRequest → ProviderOutcome)
    (question : Option String)
    (h : provider (build_chat_request (effective_question question)) =
      ProviderOutcome.completion { choices := [] }) :
    (ask_coffee_question provider question).1 =
      HandlerResult.httpError 500
        ("Failed to get coffee advice: " ++ index_error_message) ∧
    ∃ suffix,
      "Failed to get coffee advice: " ++ index_error_message =
        "Failed to get coffee advice:" ++ suffix := by
  refine ⟨?_, ⟨" " ++ index_error_message, rfl⟩⟩
  simp [ask_coffee_question, h, handle_outcome]

/-- A provider used only to instantiate theorems: it always returns a
completion with an empty choices list. -/
def empty_choices_provider : ChatRequest → ProviderOutcome :=
  fun _ => ProviderOutcome.completion { choices := [] }

/-- Witness for C8 at a concrete input: the empty-choices provider on
question `none` yields the 500 error with the IndexError message. -/
theorem askCoffee_malformed_completion_witness :
    (ask_coffee_question empty_choices_provider none).1 =
      HandlerResult.httpError 500
        ("Failed to get coffee advice: " ++ index_error_message) :=
  (askCoffee_malformed_completion empty_choices_provider none rfl).1

/-- C9: a question consisting only of whitespace, such as " ", is
treated as non-empty: the default substitution fires only for an
absent question or the exact empty string, so " " is used to build the
request and returned verbatim in the envelope. -/
theorem askCoffee_whitespace_question :
    effective_question none = default_question ∧
    effective_question (some "") = default_question ∧
    effective_question (some " ") = " " ∧
    (ask_coffee_endpoint demo_provider ⟨some " "⟩).2 = [build_chat_request " "] ∧
    (ask_coffee_endpoint demo_provider ⟨some " "⟩).1 =
      HandlerResult.ok
        { status := "success", question := " "
        , ai_response := some "demo answer", model_used := "gpt-3.5-turbo"
        , coffee_expert := "☕ AI Barista" } :=
  ⟨rfl, rfl, rfl, rfl, rfl⟩

/-- C10: the detail messages of the 401 and 429 errors are the fixed
constant strings `auth_error_detail` and `rate_limit_detail`, whatever
the request and provider; only the two 500 variants embed the
underlying error message in the detail text. -/
theorem askCoffee_fixed_error_details (provider : ChatRequest → ProviderOutcome)
    (question : Option String) :
    (provider (build_chat_request (effective_question question)) =
        ProviderOutcome.authenticationError →
      (ask_coffee_question provider question).1 =
        HandlerResult.httpError 401 auth_error_detail) ∧
    (provider (build_chat_request (effective_question question)) =
        ProviderOutcome.rateLimitError →
      (ask_coffee_question provider question).1 =
        HandlerResult.httpError 429 rate_limit_detail) ∧
    (∀ m, provider (build_chat_request (effective_question question)) =
        ProviderOutcome.apiError m →
      (ask_coffee_question provider question).1 =
        HandlerResult.httpError 500 ("OpenAI API error: " ++ m)) ∧
    (∀ m, provider (build_chat_request (effective_question question)) =
        ProviderOutcome.otherException m →
      (ask_coffee_question provider question).1 =
        HandlerResult.httpError 500 ("Failed to get coffee advice: " ++ m)) := by
  refine ⟨?_, ?_, ?_, ?_⟩
  · intro h; simp [ask_coffee_question, h, handle_outcome]
  · intro h; simp [ask_coffee_question, h, handle_outcome]
  · intro m h; simp [ask_coffee_question, h, handle_outcome]
  · intro m h; simp [ask_coffee_question, h, handle_outcome]

/-- Witness for C10 at a concrete input: a provider that always
rate-limits yields status 429 with the fixed detail string. -/
theorem askCoffee_fixed_error_details_witness :
    (ask_coffee_question (fun _ => ProviderOutcome.rateLimitError) none).1 =
      HandlerResult.httpError 429 rate_limit_detail :=
  (askCoffee_fixed_error_details (fun _ => ProviderOutcome.rateLimitError) none).2.1 rfl

end CoffeeAI
